import Mathlib

/-!
Verification development for the PDF form-filling pipeline implemented in
src/lambda_function.py: a request handler that fills a PDF template with
submitted data (fill_pdf), locks form fields read-only (set_fields_readonly),
toggles widget visibility (set_button_visibility) and publishes the result.

Shallow embedding notes.  A PDF document is modelled as a tree of records:
a Document holds Pages, each Page optionally holds an annotation list, and
each Annotation carries exactly the dictionary entries the pipeline reads or
writes (Subtype, T, Ff, F, V, AS) plus an opaque `rest` component standing
for all untouched dictionary entries.  Python values arriving from the parsed
JSON body are modelled by `PyVal`; Python `str(...)` is modelled by `pyStr`.
The object store (download, upload, presigned URL) and PDF byte
(de)serialization are external collaborators: each stage is modelled as a
function on the in-memory Document, and the handler takes the fetched
template Document as an argument.  Python exceptions (the `key in None`
TypeError in set_button_visibility) are modelled with `Except`.
-/

/-- A Python value as produced by json.loads on the request body. -/
inductive PyVal where
  | str (s : String)
  | bool (b : Bool)
  | int (n : Int)
  | dict (entries : List (String × PyVal))
  | null

mutual

/-- Python repr of a value, as used inside str() of containers. -/
def pyRepr : PyVal → String
  | PyVal.str s => "\x27" ++ s ++ "\x27"
  | PyVal.bool b => if b then "True" else "False"
  | PyVal.int n => toString n
  | PyVal.dict es => "\x7b" ++ pyReprEntries es ++ "\x7d"
  | PyVal.null => "None"

/-- Comma-separated rendering of dict entries, as Python does. -/
def pyReprEntries : List (String × PyVal) → String
  | [] => ""
  | [(k, v)] => "\x27" ++ k ++ "\x27: " ++ pyRepr v
  | (k, v) :: e :: rest => "\x27" ++ k ++ "\x27: " ++ pyRepr v ++ ", " ++ pyReprEntries (e :: rest)

end

/-- Python str() of a value: a string renders as itself, anything else as its repr. -/
def pyStr : PyVal → String
  | PyVal.str s => s
  | v => pyRepr v

/-- Python dict lookup (dict.get / key membership combined): first matching key. -/
def lookupPy (m : List (String × PyVal)) (k : String) : Option PyVal :=
  match m with
  | [] => none
  | kv :: rest => if kv.1 = k then some kv.2 else lookupPy rest k

/-- Python truthiness of a value, as used by `if visibility_map[key]:`. -/
def truthy : PyVal → Bool
  | PyVal.str s => s != ""
  | PyVal.bool b => b
  | PyVal.int n => n != 0
  | PyVal.dict es => !es.isEmpty
  | PyVal.null => false

/-- Python substring membership `needle in hay` on str values. -/
def strContains (hay needle : String) : Bool :=
  decide (needle.toList <:+: hay.toList)

/-- An annotation dictionary: the entries the pipeline touches, plus `rest`
for every other entry (Rect, appearance streams, ...), which no stage writes. -/
structure Annot where
  subtype : String
  T : Option String
  Ff : Option Nat
  F : Option Nat
  V : Option String
  AS : Option String
  rest : List (String × String)
deriving Repr, DecidableEq

/-- A page: an optional annotation list (absent key modelled as `none`) plus
opaque remaining entries. -/
structure Page where
  Annots : Option (List Annot)
  rest : List (String × String)
deriving Repr, DecidableEq

/-- The AcroForm dictionary: the NeedAppearances flag the pipeline sets, plus
opaque remaining entries (Fields, DA, ...). -/
structure AcroForm where
  needAppearances : Bool
  rest : List (String × String)
deriving Repr, DecidableEq

/-- A document: ordered pages and an optional AcroForm in the root catalog. -/
structure Document where
  pages : List Page
  acroForm : Option AcroForm
  rest : List (String × String)
deriving Repr, DecidableEq

/-- Python slice `s[1:-1]`: strips the parentheses of a PDF field-name string. -/
def stripKey (s : String) : String := (s.drop 1).dropRight 1

/-- The test `fields is None or key in fields` of set_fields_readonly. -/
def fieldMatch (fields : Option (List String)) (key : String) : Bool :=
  match fields with
  | none => true
  | some fs => fs.contains key

/-- Loop body of set_fields_readonly: a Widget annotation with a truthy /T
whose key matches gets Ff := (existing or 0) | 1; anything else unchanged. -/
def lockAnnot (fields : Option (List String)) (a : Annot) : Annot :=
  match a.T with
  | some t =>
    if a.subtype == "/Widget" && t != "" && fieldMatch fields (stripKey t) then
      { a with Ff := some (a.Ff.getD 0 ||| 1) }
    else a
  | none => a

/-- Loop body of fill_pdf: a Widget annotation with a truthy /T whose key is
in the data gets V and AS set to str(data[key]); anything else unchanged. -/
def fillAnnot (data : List (String × PyVal)) (a : Annot) : Annot :=
  match a.T with
  | some t =>
    if a.subtype == "/Widget" && t != "" then
      match lookupPy data (stripKey t) with
      | some v => { a with V := some (pyStr v), AS := some (pyStr v) }
      | none => a
    else a
  | none => a

/-- Per-page traversal shared by fill_pdf and set_fields_readonly: pages with
no /Annots entry or a falsy (empty) list are skipped, the rest have each
annotation rewritten in place. -/
def mapAnnots (f : Annot → Annot) (p : Page) : Page :=
  match p.Annots with
  | some l => if l.isEmpty then p else { p with Annots := some (l.map f) }
  | none => p

/-- `if pdf.Root.AcroForm: pdf.Root.AcroForm.update(NeedAppearances=true)`. -/
def setAcroNeedAppearances (d : Document) : Document :=
  match d.acroForm with
  | some af => { d with acroForm := some { af with needAppearances := true } }
  | none => d

/-- set_fields_readonly from src/lambda_function.py: lock matching fields
read-only (fields = none means all), then set NeedAppearances.  Reading the
input bytes and writing the output bytes are external. -/
def set_fields_readonly (fields : Option (List String)) (d : Document) : Document :=
  setAcroNeedAppearances { d with pages := d.pages.map (mapAnnots (lockAnnot fields)) }

/-- fill_pdf from src/lambda_function.py: write V and AS on every named
Widget whose key is in the data, then set NeedAppearances. -/
def fill_pdf (data : List (String × PyVal)) (d : Document) : Document :=
  setAcroNeedAppearances { d with pages := d.pages.map (mapAnnots (fillAnnot data)) }

/-- Branch of set_button_visibility once `key in visibility_map` has been
decided on a dict: a truthy mapped value keeps the annotation with F := 0,
a falsy one drops it, an unmapped key keeps it unchanged. -/
def showOrHide (m : List (String × PyVal)) (key : String) (a : Annot) : List Annot :=
  match lookupPy m key with
  | some v => if truthy v then [{ a with F := some 0 }] else []
  | none => [a]

/-- Total per-annotation behaviour of set_button_visibility when the
visibility map is an actual dict. -/
def annotVisD (m : List (String × PyVal)) (a : Annot) : List Annot :=
  match a.T with
  | some t =>
    if a.subtype == "/Widget" && t != "" then showOrHide m (stripKey t) a
    else [a]
  | none => [a]

/-- Loop body of set_button_visibility on one annotation.  The membership
test `key in visibility_map` runs on whatever object the handler passed:
a dict tests key membership; a str tests substring membership and, when it
succeeds, the subsequent `visibility_map[key]` indexing raises TypeError;
None and the remaining types raise TypeError at the membership test itself. -/
def visitAnnot (vm : Option PyVal) (a : Annot) : Except String (List Annot) :=
  match a.T with
  | some t =>
    if a.subtype == "/Widget" && t != "" then
      match vm with
      | some (PyVal.dict m) => Except.ok (annotVisD m a)
      | some (PyVal.str s) =>
          if strContains s (stripKey t) then
            Except.error "TypeError: string indices must be integers"
          else Except.ok [a]
      | _ => Except.error "TypeError: argument of type is not iterable"
    else Except.ok [a]
  | none => Except.ok [a]

/-- Per-page loop of set_button_visibility: pages with no or falsy /Annots are
skipped; otherwise the list is rebuilt and, when the rebuilt list is empty,
the /Annots key is removed from the page (page.pop). -/
def visitPage (vm : Option PyVal) (p : Page) : Except String Page :=
  match p.Annots with
  | some l =>
    if l.isEmpty then Except.ok p
    else do
      let parts ← l.mapM (visitAnnot vm)
      let newAnnots := parts.flatten
      if newAnnots.isEmpty then
        pure { p with Annots := none }
      else
        pure { p with Annots := some newAnnots }
  | none => Except.ok p

/-- set_button_visibility from src/lambda_function.py. -/
def set_button_visibility (vm : Option PyVal) (d : Document) : Except String Document := do
  let ps ← d.pages.mapM (visitPage vm)
  pure (setAcroNeedAppearances { d with pages := ps })

/-- Total document-level behaviour of set_button_visibility on a dict map. -/
def pageVisD (m : List (String × PyVal)) (p : Page) : Page :=
  match p.Annots with
  | some l =>
    if l.isEmpty then p
    else
      let newAnnots := l.flatMap (annotVisD m)
      if newAnnots.isEmpty then { p with Annots := none }
      else { p with Annots := some newAnnots }
  | none => p

/-- Total document-level behaviour of set_button_visibility on a dict map. -/
def setButtonVisibilityD (m : List (String × PyVal)) (d : Document) : Document :=
  setAcroNeedAppearances { d with pages := d.pages.map (pageVisD m) }

/-- Module constant TEMPLATE_KEY. -/
def TEMPLATE_KEY : String := "input/test.pdf"

/-- `body.get(\x27template_path\x27, TEMPLATE_KEY)`: the key the template is
fetched from; the fetch itself is an external collaborator. -/
def templatePath (body : List (String × PyVal)) : PyVal :=
  (lookupPy body "template_path").getD (PyVal.str TEMPLATE_KEY)

/-- lambda_handler from src/lambda_function.py, restricted to the document
pipeline: the template Document stands for the bytes fetched from
templatePath; JSON parsing, upload and URL signing are external.  The whole
parsed body is passed to fill_pdf as the field data; set_fields_readonly is
called with fields = None; `body.get` yields None when visibility_map is
absent (or JSON null), and that None flows into set_button_visibility.
On Except.ok the source returns statusCode 200 with the presigned URL. -/
def lambda_handler (template : Document) (body : List (String × PyVal)) :
    Except String Document := do
  let filled := fill_pdf body template
  let locked := set_fields_readonly none filled
  set_button_visibility (lookupPy body "visibility_map") locked

/-- All annotations of a document, page order preserved. -/
def allAnnots (d : Document) : List Annot :=
  d.pages.flatMap (fun p => p.Annots.getD [])

/-! Concrete documents and request bodies used as test inputs. -/

/-- A blank named widget annotation with the given /T string and /Ff value. -/
def mkWidget (t : String) (ff : Option Nat) : Annot :=
  { subtype := "/Widget", T := some t, Ff := ff, F := none, V := none,
    AS := none, rest := [] }

/-- A one-page document holding the given annotations, with an AcroForm. -/
def mkDoc (annots : List Annot) : Document :=
  { pages := [{ Annots := some annots, rest := [] }],
    acroForm := some { needAppearances := false, rest := [] }, rest := [] }

/-- Input for the lock-then-show interaction: one widget named x, carrying a
hidden flag /F = 2 and no /Ff entry. -/
def c1Doc : Document :=
  mkDoc [{ mkWidget "(x)" none with F := some 2 }]

/-- The widget of c1Doc after locking all fields and then showing x. -/
def c1OutAnnot : Annot :=
  { subtype := "/Widget", T := some "(x)", Ff := some 1, F := some 0,
    V := none, AS := none, rest := [] }

/-- Template with a single named widget, used for the missing-map request. -/
def c2Doc : Document := mkDoc [mkWidget "(name)" (some 0)]

/-- Request body that omits the visibility_map key. -/
def c2Body : List (String × PyVal) := [("name", PyVal.str "Alice")]

/-- A widget with pre-existing field flags /Ff = 4. -/
def c3Annot : Annot := mkWidget "(x)" (some 4)

/-- One-page document holding c3Annot. -/
def c3Doc : Document := mkDoc [c3Annot]

/-- Widget mapped to false in the c4 visibility map. -/
def c4Hidden : Annot := mkWidget "(hide)" (some 0)

/-- Widget mapped to true in the c4 visibility map, carrying /F = 2. -/
def c4Shown : Annot := { mkWidget "(show)" (some 0) with F := some 2 }

/-- A non-Widget annotation (a link), untouched by the pipeline. -/
def c4Link : Annot :=
  { subtype := "/Link", T := none, Ff := none, F := none, V := none,
    AS := none, rest := [("Dest", "page2")] }

/-- Visibility map hiding `hide` and showing `show`. -/
def c4Map : List (String × PyVal) :=
  [("hide", PyVal.bool false), ("show", PyVal.bool true)]

/-- One-page document with a hidden widget, a shown widget and a link. -/
def c4Doc : Document := mkDoc [c4Hidden, c4Shown, c4Link]

/-- Scenario template: widgets name and signature, both with flags 0. -/
def c6Doc : Document := mkDoc [mkWidget "(name)" (some 0), mkWidget "(signature)" (some 0)]

/-- Scenario body: data name = Alice, visibility signature = false. -/
def c6Body : List (String × PyVal) :=
  [("name", PyVal.str "Alice"),
   ("visibility_map", PyVal.dict [("signature", PyVal.bool false)])]

/-- Expected scenario output: name filled with Alice and locked, signature
removed, NeedAppearances set. -/
def c6Out : Document :=
  { pages := [{ Annots := some [{ subtype := "/Widget", T := some "(name)",
                                  Ff := some 1, F := none, V := some "Alice",
                                  AS := some "Alice", rest := [] }],
                rest := [] }],
    acroForm := some { needAppearances := true, rest := [] }, rest := [] }

/-- One-page document whose only annotation is hidden by c8Map. -/
def c8Doc : Document := mkDoc [mkWidget "(x)" (some 0)]

/-- Visibility map hiding x. -/
def c8Map : List (String × PyVal) := [("x", PyVal.bool false)]

/-- Template holding a widget named template_path. -/
def c10Doc : Document := mkDoc [mkWidget "(template_path)" (some 0)]

/-- Request body supplying both reserved keys. -/
def c10Body : List (String × PyVal) :=
  [("template_path", PyVal.str "input/other.pdf"),
   ("visibility_map", PyVal.dict [("signature", PyVal.bool false)])]

/-! Helper lemmas about the stage functions. -/

theorem setAcro_pages (d : Document) :
    (setAcroNeedAppearances d).pages = d.pages := by
  cases h : d.acroForm <;> simp [setAcroNeedAppearances, h]

theorem setAcro_rest (d : Document) :
    (setAcroNeedAppearances d).rest = d.rest := by
  cases h : d.acroForm <;> simp [setAcroNeedAppearances, h]

theorem setAcro_acroForm (d : Document) :
    (setAcroNeedAppearances d).acroForm
      = d.acroForm.map (fun af => { af with needAppearances := true }) := by
  cases h : d.acroForm <;> simp [setAcroNeedAppearances, h]

theorem mapAnnots_getD (f : Annot → Annot) (p : Page) :
    ((mapAnnots f p).Annots).getD [] = (p.Annots.getD []).map f := by
  cases h : p.Annots with
  | none => simp [mapAnnots, h]
  | some l => cases l with
    | nil => simp [mapAnnots, h]
    | cons a t => simp [mapAnnots, h]

theorem flatMap_map_pages (ps : List Page) (f : Annot → Annot) :
    (ps.map (mapAnnots f)).flatMap (fun p => p.Annots.getD [])
      = (ps.flatMap (fun p => p.Annots.getD [])).map f := by
  induction ps with
  | nil => rfl
  | cons p t ih => simp [mapAnnots_getD, ih]

theorem allAnnots_fill (data : List (String × PyVal)) (d : Document) :
    allAnnots (fill_pdf data d) = (allAnnots d).map (fillAnnot data) := by
  unfold allAnnots fill_pdf
  rw [setAcro_pages]
  exact flatMap_map_pages d.pages (fillAnnot data)

theorem allAnnots_lock (fields : Option (List String)) (d : Document) :
    allAnnots (set_fields_readonly fields d)
      = (allAnnots d).map (lockAnnot fields) := by
  unfold allAnnots set_fields_readonly
  rw [setAcro_pages]
  exact flatMap_map_pages d.pages (lockAnnot fields)

theorem pageVisD_getD (m : List (String × PyVal)) (p : Page) :
    ((pageVisD m p).Annots).getD []
      = (p.Annots.getD []).flatMap (annotVisD m) := by
  cases h : p.Annots with
  | none => simp [pageVisD, h]
  | some l => cases l with
    | nil => simp [pageVisD, h]
    | cons a t =>
      simp only [pageVisD, h, Option.getD_some]
      split
      next he => simp at he
      next =>
        split
        next he => simp_all
        next => rfl

theorem flatMap_visD_pages (ps : List Page) (m : List (String × PyVal)) :
    (ps.map (pageVisD m)).flatMap (fun p => p.Annots.getD [])
      = (ps.flatMap (fun p => p.Annots.getD [])).flatMap (annotVisD m) := by
  induction ps with
  | nil => rfl
  | cons p t ih => simp [pageVisD_getD, ih]

theorem allAnnots_visD (m : List (String × PyVal)) (d : Document) :
    allAnnots (setButtonVisibilityD m d)
      = (allAnnots d).flatMap (annotVisD m) := by
  unfold allAnnots setButtonVisibilityD
  rw [setAcro_pages]
  exact flatMap_visD_pages d.pages m

theorem exceptBindOk {α β : Type} (x : α) (f : α → Except String β) :
    (Except.ok x >>= f) = f x := rfl

theorem visitAnnot_dict (m : List (String × PyVal)) (a : Annot) :
    visitAnnot (some (PyVal.dict m)) a = Except.ok (annotVisD m a) := by
  cases h : a.T with
  | none => simp [visitAnnot, annotVisD, h]
  | some t =>
    simp only [visitAnnot, annotVisD, h]
    split <;> rfl

theorem mapM_ok_of {α β : Type} (f : α → Except String β) (g : α → β)
    (h : ∀ a, f a = Except.ok (g a)) :
    ∀ l : List α, l.mapM f = Except.ok (l.map g) := by
  intro l
  induction l with
  | nil => rfl
  | cons a t ih =>
    rw [List.mapM_cons, h a, ih]
    rfl

theorem visitPage_dict (m : List (String × PyVal)) (p : Page) :
    visitPage (some (PyVal.dict m)) p = Except.ok (pageVisD m p) := by
  cases h : p.Annots with
  | none => simp [visitPage, pageVisD, h]
  | some l => cases l with
    | nil => simp [visitPage, pageVisD, h]
    | cons a t =>
      simp only [visitPage, pageVisD, h]
      rw [mapM_ok_of (visitAnnot (some (PyVal.dict m))) (annotVisD m)
            (visitAnnot_dict m) (a :: t), exceptBindOk]
      simp only [List.isEmpty_cons, Bool.false_eq_true, if_false,
        List.flatMap_def]
      split <;> rfl

theorem vis_dict_ok (m : List (String × PyVal)) (d : Document) :
    set_button_visibility (some (PyVal.dict m)) d
      = Except.ok (setButtonVisibilityD m d) := by
  unfold set_button_visibility setButtonVisibilityD
  rw [mapM_ok_of (visitPage (some (PyVal.dict m))) (pageVisD m)
        (visitPage_dict m) d.pages]
  rfl

theorem lockAnnot_eq_or (fields : Option (List String)) (a : Annot) :
    lockAnnot fields a = a
      ∨ lockAnnot fields a = { a with Ff := some (a.Ff.getD 0 ||| 1) } := by
  cases h : a.T with
  | none => left; simp [lockAnnot, h]
  | some t =>
    by_cases hc :
        (a.subtype == "/Widget" && t != "" && fieldMatch fields (stripKey t)) = true
    · right; simp [lockAnnot, h, hc]
    · left; simp [lockAnnot, h, hc]

theorem fillAnnot_eq_or (data : List (String × PyVal)) (a : Annot) :
    fillAnnot data a = a
      ∨ ∃ s, fillAnnot data a = { a with V := some s, AS := some s } := by
  cases h : a.T with
  | none => left; simp [fillAnnot, h]
  | some t =>
    by_cases hc : (a.subtype == "/Widget" && t != "") = true
    · cases hl : lookupPy data (stripKey t) with
      | none => left; simp [fillAnnot, h, hc, hl]
      | some v => right; exact ⟨pyStr v, by simp [fillAnnot, h, hc, hl]⟩
    · left; simp [fillAnnot, h, hc]

theorem lockAnnot_subtype (fields : Option (List String)) (a : Annot) :
    (lockAnnot fields a).subtype = a.subtype := by
  rcases lockAnnot_eq_or fields a with h | h <;> rw [h]

theorem lockAnnot_T (fields : Option (List String)) (a : Annot) :
    (lockAnnot fields a).T = a.T := by
  rcases lockAnnot_eq_or fields a with h | h <;> rw [h]

theorem fillAnnot_subtype (data : List (String × PyVal)) (a : Annot) :
    (fillAnnot data a).subtype = a.subtype := by
  rcases fillAnnot_eq_or data a with h | ⟨s, h⟩ <;> rw [h]

theorem fillAnnot_T (data : List (String × PyVal)) (a : Annot) :
    (fillAnnot data a).T = a.T := by
  rcases fillAnnot_eq_or data a with h | ⟨s, h⟩ <;> rw [h]

theorem lockAnnot_hit (fields : Option (List String)) (a : Annot) (t : String)
    (hw : a.subtype = "/Widget") (ht : a.T = some t) (hne : t ≠ "")
    (hm : fieldMatch fields (stripKey t) = true) :
    lockAnnot fields a = { a with Ff := some (a.Ff.getD 0 ||| 1) } := by
  simp [lockAnnot, ht, hw, hne, hm]

theorem fillAnnot_hit (data : List (String × PyVal)) (a : Annot) (t : String)
    (v : PyVal) (hw : a.subtype = "/Widget") (ht : a.T = some t) (hne : t ≠ "")
    (hv : lookupPy data (stripKey t) = some v) :
    fillAnnot data a = { a with V := some (pyStr v), AS := some (pyStr v) } := by
  simp [fillAnnot, ht, hw, hne, hv]

theorem fillAnnot_miss (data : List (String × PyVal)) (a : Annot)
    (h : ∀ t, a.T = some t → a.subtype = "/Widget" → t ≠ ""
      → lookupPy data (stripKey t) = none) :
    fillAnnot data a = a := by
  cases hT : a.T with
  | none => simp [fillAnnot, hT]
  | some t =>
    by_cases hc : (a.subtype == "/Widget" && t != "") = true
    · rw [Bool.and_eq_true] at hc
      have hw : a.subtype = "/Widget" := by simpa using hc.1
      have hne : t ≠ "" := by simpa using hc.2
      simp [fillAnnot, hT, hw, hne, h t hT hw hne]
    · simp [fillAnnot, hT, hc]

theorem annotVisD_hit (m : List (String × PyVal)) (a : Annot) (t : String)
    (v : PyVal) (hw : a.subtype = "/Widget") (ht : a.T = some t) (hne : t ≠ "")
    (hv : lookupPy m (stripKey t) = some v) :
    annotVisD m a = if truthy v then [{ a with F := some 0 }] else [] := by
  simp [annotVisD, showOrHide, ht, hw, hne, hv]

theorem annotVisD_miss (m : List (String × PyVal)) (a : Annot)
    (h : ∀ t, a.T = some t → a.subtype = "/Widget" → t ≠ ""
      → lookupPy m (stripKey t) = none) :
    annotVisD m a = [a] := by
  cases hT : a.T with
  | none => simp [annotVisD, hT]
  | some t =>
    by_cases hc : (a.subtype == "/Widget" && t != "") = true
    · rw [Bool.and_eq_true] at hc
      have hw : a.subtype = "/Widget" := by simpa using hc.1
      have hne : t ≠ "" := by simpa using hc.2
      simp [annotVisD, showOrHide, hT, hw, hne, h t hT hw hne]
    · simp [annotVisD, hT, hc]

theorem testBit_lor_one_zero (x : Nat) : (x ||| 1).testBit 0 = true := by
  simp [Nat.testBit_or]

theorem testBit_lor_one_ne (x i : Nat) (h : i ≠ 0) :
    (x ||| 1).testBit i = x.testBit i := by
  cases i with
  | zero => exact absurd rfl h
  | succ j => rw [Nat.testBit_or]; simp [Nat.testBit_succ]

theorem list_map_id_of {α : Type} (f : α → α) (hf : ∀ a, f a = a)
    (l : List α) : l.map f = l := by
  induction l with
  | nil => rfl
  | cons a t ih => simp [hf, ih]

theorem fillAnnot_nil (a : Annot) : fillAnnot [] a = a := by
  cases hT : a.T with
  | none => simp [fillAnnot, hT]
  | some t => simp [fillAnnot, hT, lookupPy]

theorem mapAnnots_congr_id (f : Annot → Annot) (hf : ∀ a, f a = a)
    (p : Page) : mapAnnots f p = p := by
  cases h : p.Annots with
  | none => simp [mapAnnots, h]
  | some l => cases l with
    | nil => simp [mapAnnots, h]
    | cons a t =>
      simp only [mapAnnots, h, List.isEmpty_cons, Bool.false_eq_true, if_false]
      rw [list_map_id_of f hf]
      rw [← h]

theorem exceptBindError {α β : Type} (e : String)
    (g : α → Except String β) :
    ((Except.error e : Except String α) >>= g) = Except.error e := rfl

theorem setAcro_flag (d : Document) (af : AcroForm)
    (h : (setAcroNeedAppearances d).acroForm = some af) :
    af.needAppearances = true := by
  rw [setAcro_acroForm] at h
  cases hA : d.acroForm with
  | none => rw [hA] at h; simp at h
  | some af0 =>
    rw [hA] at h
    simp only [Option.map_some'] at h
    injection h with h2
    subst h2
    rfl

theorem mem_annotVisD (m : List (String × PyVal)) (b x : Annot)
    (hx : x ∈ annotVisD m b) :
    x = b ∨ x = { b with F := some 0 } := by
  cases hT : b.T with
  | none => simp [annotVisD, hT] at hx; exact Or.inl hx
  | some t =>
    by_cases hc : (b.subtype == "/Widget" && t != "") = true
    · cases hl : lookupPy m (stripKey t) with
      | none =>
        simp [annotVisD, showOrHide, hT, hc, hl] at hx
        exact Or.inl hx
      | some v =>
        by_cases htr : truthy v = true
        · simp [annotVisD, showOrHide, hT, hc, hl, htr] at hx
          exact Or.inr hx
        · simp [annotVisD, showOrHide, hT, hc, hl, htr] at hx
    · simp [annotVisD, hT, hc] at hx; exact Or.inl hx

theorem mem_annotVisD_attrs (m : List (String × PyVal)) (b x : Annot)
    (hx : x ∈ annotVisD m b) :
    x.T = b.T ∧ x.subtype = b.subtype ∧ x.Ff = b.Ff := by
  rcases mem_annotVisD m b x hx with h | h <;> subst h <;> exact ⟨rfl, rfl, rfl⟩

/-! Claim theorems. -/

/-- C2 (code bug evidence): the spec declares visibility_map optional, but a
request body lacking it makes the handler crash.  body.get yields None, and
the membership test key in None inside set_button_visibility raises
TypeError as soon as the template has one named Widget annotation, so the
invocation fails instead of returning status 200 with a url. -/
theorem C2_missing_visibility_map_crashes :
    lambda_handler c2Doc c2Body
      = Except.error "TypeError: argument of type is not iterable" := rfl

/-- C3: locking with fieldNames = null turns every named Widget annotation
into the same annotation with Ff := (existing or 0) | 1: bit 0 is set, every
other bit is preserved, and an annotation with flags 4 becomes flags 5. -/
theorem C3_lock_all_sets_readonly_bit (d : Document) (a : Annot) (t : String)
    (ha : a ∈ allAnnots d) (hw : a.subtype = "/Widget") (ht : a.T = some t)
    (hne : t ≠ "") :
    lockAnnot none a = { a with Ff := some (a.Ff.getD 0 ||| 1) }
    ∧ lockAnnot none a ∈ allAnnots (set_fields_readonly none d)
    ∧ (a.Ff.getD 0 ||| 1).testBit 0 = true
    ∧ (∀ i, i ≠ 0 → (a.Ff.getD 0 ||| 1).testBit i = (a.Ff.getD 0).testBit i)
    ∧ (a.Ff = some 4 → lockAnnot none a = { a with Ff := some 5 }) := by
  have hl := lockAnnot_hit none a t hw ht hne rfl
  refine ⟨hl, ?_, testBit_lor_one_zero _,
    fun i hi => testBit_lor_one_ne _ i hi, ?_⟩
  · rw [allAnnots_lock]
    exact List.mem_map_of_mem _ ha
  · intro h4
    rw [hl, h4, show ((some 4 : Option Nat).getD 0 ||| 1) = 5 from by decide]

/-- C3 witness: the widget with flags 4 in c3Doc is locked to flags 5. -/
theorem C3_lock_all_sets_readonly_bit_witness :
    lockAnnot none c3Annot = { c3Annot with Ff := some 5 }
    ∧ lockAnnot none c3Annot ∈ allAnnots (set_fields_readonly none c3Doc) := by
  have h := C3_lock_all_sets_readonly_bit c3Doc c3Annot "(x)"
    (by decide) rfl rfl (by decide)
  exact ⟨h.2.2.2.2 rfl, h.2.1⟩

/-- C5: fill sets V and AS to the string form of the submitted value on every
named Widget whose key is in the data, maps every annotation of the document
through fillAnnot, and leaves any annotation with no matching data entry
(unnamed, non-widget, or key absent) unchanged; fill never fails. -/
theorem C5_fill_semantics (data : List (String × PyVal)) (d : Document)
    (a : Annot) (t : String) (v : PyVal)
    (hw : a.subtype = "/Widget") (ht : a.T = some t) (hne : t ≠ "")
    (hv : lookupPy data (stripKey t) = some v) :
    fillAnnot data a = { a with V := some (pyStr v), AS := some (pyStr v) }
    ∧ allAnnots (fill_pdf data d) = (allAnnots d).map (fillAnnot data)
    ∧ (∀ b, (∀ u, b.T = some u → b.subtype = "/Widget" → u ≠ ""
          → lookupPy data (stripKey u) = none) → fillAnnot data b = b) :=
  ⟨fillAnnot_hit data a t v hw ht hne hv, allAnnots_fill data d,
   fun b hb => fillAnnot_miss data b hb⟩

/-- C5 witness: filling c2Doc with name = Alice writes Alice into V and AS. -/
theorem C5_fill_semantics_witness :
    fillAnnot c2Body (mkWidget "(name)" (some 0))
      = { mkWidget "(name)" (some 0) with
          V := some "Alice", AS := some "Alice" }
    ∧ allAnnots (fill_pdf c2Body c2Doc)
        = (allAnnots c2Doc).map (fillAnnot c2Body) := by
  have h := C5_fill_semantics c2Body c2Doc (mkWidget "(name)" (some 0))
    "(name)" (PyVal.str "Alice") rfl rfl (by decide) rfl
  exact ⟨h.1, h.2.1⟩

/-- C6: the end-to-end scenario.  Template with widgets name and signature
(both flags 0), data name = Alice, lock all, visibility signature = false:
the final document has the name widget with value Alice and Ff = 1, and the
signature widget is gone from the page annotations. -/
theorem C6_scenario : lambda_handler c6Doc c6Body = Except.ok c6Out := rfl

/-- C7: each stage independently sets NeedAppearances on the AcroForm of its
output whenever that output has an AcroForm. -/
theorem C7_need_appearances_each_stage (d : Document)
    (data : List (String × PyVal)) (fields : Option (List String))
    (vm : Option PyVal) :
    (∀ af, (fill_pdf data d).acroForm = some af → af.needAppearances = true)
    ∧ (∀ af, (set_fields_readonly fields d).acroForm = some af
        → af.needAppearances = true)
    ∧ (∀ d' af, set_button_visibility vm d = Except.ok d'
        → d'.acroForm = some af → af.needAppearances = true) := by
  refine ⟨?_, ?_, ?_⟩
  · intro af haf
    unfold fill_pdf at haf
    exact setAcro_flag _ af haf
  · intro af haf
    unfold set_fields_readonly at haf
    exact setAcro_flag _ af haf
  · intro d' af hok haf
    unfold set_button_visibility at hok
    cases hm : d.pages.mapM (visitPage vm) with
    | error e =>
      rw [hm] at hok
      exact absurd hok (by simp [exceptBindError])
    | ok ps =>
      rw [hm, exceptBindOk] at hok
      have hd' : setAcroNeedAppearances { d with pages := ps } = d' := by
        injection hok
      rw [← hd'] at haf
      exact setAcro_flag _ af haf

/-- C7 witness: on the one-widget template with an AcroForm, all three stages
produce NeedAppearances = true. -/
theorem C7_need_appearances_each_stage_witness :
    (fill_pdf [] c2Doc).acroForm
      = some { needAppearances := true, rest := [] }
    ∧ ({ needAppearances := true, rest := [] } : AcroForm).needAppearances
        = true
    ∧ ({ needAppearances := true, rest := [] } : AcroForm).needAppearances
        = true
    ∧ ({ needAppearances := true, rest := [] } : AcroForm).needAppearances
        = true := by
  have h := C7_need_appearances_each_stage c2Doc [] none (some (PyVal.dict []))
  refine ⟨rfl, h.1 _ rfl, h.2.1 _ rfl, h.2.2 (setButtonVisibilityD [] c2Doc) _
    (vis_dict_ok [] c2Doc) rfl⟩

/-- C8: a page whose rebuilt annotation list is empty has its annotation-list
attribute removed (Annots = none, not some []). -/
theorem C8_empty_annots_removed (m : List (String × PyVal)) (d : Document)
    (p : Page) (l : List Annot) (hp : p ∈ d.pages) (hl : p.Annots = some l)
    (hne : l ≠ []) (hempty : l.flatMap (annotVisD m) = []) :
    (pageVisD m p).Annots = none
    ∧ pageVisD m p ∈ (setButtonVisibilityD m d).pages
    ∧ set_button_visibility (some (PyVal.dict m)) d
        = Except.ok (setButtonVisibilityD m d) := by
  refine ⟨?_, ?_, vis_dict_ok m d⟩
  · simp [pageVisD, hl, hne, hempty]
  · unfold setButtonVisibilityD
    rw [setAcro_pages]
    exact List.mem_map_of_mem _ hp

/-- C8 witness: hiding the only widget of c8Doc removes the Annots entry. -/
theorem C8_empty_annots_removed_witness :
    (pageVisD c8Map { Annots := some [mkWidget "(x)" (some 0)], rest := [] }).Annots
      = none
    ∧ pageVisD c8Map { Annots := some [mkWidget "(x)" (some 0)], rest := [] }
        ∈ (setButtonVisibilityD c8Map c8Doc).pages := by
  have h := C8_empty_annots_removed c8Map c8Doc
    { Annots := some [mkWidget "(x)" (some 0)], rest := [] }
    [mkWidget "(x)" (some 0)] (by decide) rfl (by decide) (by decide)
  exact ⟨h.1, h.2.1⟩

/-- C9: filling with an empty data map only sets NeedAppearances: pages and
all other root entries are unchanged. -/
theorem C9_fill_empty_identity (d : Document) :
    fill_pdf [] d = setAcroNeedAppearances d
    ∧ (fill_pdf [] d).pages = d.pages
    ∧ (fill_pdf [] d).rest = d.rest
    ∧ (fill_pdf [] d).acroForm
        = d.acroForm.map (fun af => { af with needAppearances := true }) := by
  have h1 : fill_pdf [] d = setAcroNeedAppearances d := by
    unfold fill_pdf
    rw [list_map_id_of _ (mapAnnots_congr_id _ fillAnnot_nil) d.pages]
  refine ⟨h1, ?_, ?_, ?_⟩
  · rw [h1, setAcro_pages]
  · rw [h1, setAcro_rest]
  · rw [h1, setAcro_acroForm]

/-- C1 counterexample: the claim predicts that locking all fields and then
showing field x leaves the field with all flags zero, the read-only state
discarded.  On c1Doc the resulting widget instead carries Ff = 1: the
Visibility Controller writes the annotation-flag entry /F (setting it to 0),
while the read-only bit lives in the separate field-flag entry /Ff, which the
show path never touches, so the field stays locked. -/
theorem C1_counterexample :
    (set_button_visibility (some (PyVal.dict [("x", PyVal.bool true)]))
        (set_fields_readonly none c1Doc)).map
      (fun d => (allAnnots d).map (fun a => (a.Ff, a.F)))
      = Except.ok [(some 1, some 0)]
    ∧ (some 1 : Option Nat) ≠ some 0 := ⟨rfl, by decide⟩

/-- C1 amended: after the Field Locker (fieldNames = null) and then the
Visibility Controller with the field name mapped to true, the widget has its
annotation flags /F set to 0, but its field flags /Ff keep bit 0 (read-only)
set: showing a previously-read-only field does not un-lock it. -/
theorem C1_show_keeps_readonly (d : Document) (f : String) (d' : Document)
    (a : Annot) (t : String)
    (h : set_button_visibility (some (PyVal.dict [(f, PyVal.bool true)]))
          (set_fields_readonly none d) = Except.ok d')
    (ha : a ∈ allAnnots d') (hw : a.subtype = "/Widget") (ht : a.T = some t)
    (hne : t ≠ "") (hk : stripKey t = f) :
    a.F = some 0 ∧ ∃ n, a.Ff = some n ∧ n.testBit 0 = true := by
  rw [vis_dict_ok] at h
  injection h with h2
  subst h2
  rw [allAnnots_visD, allAnnots_lock] at ha
  rw [List.mem_flatMap] at ha
  obtain ⟨b, hb, hab⟩ := ha
  rw [List.mem_map] at hb
  obtain ⟨c, hc, hbc⟩ := hb
  have htrans := mem_annotVisD_attrs _ b a hab
  have hbT : b.T = some t := by rw [← htrans.1, ht]
  have hbw : b.subtype = "/Widget" := by rw [← htrans.2.1, hw]
  have hlook : lookupPy [(f, PyVal.bool true)] (stripKey t)
      = some (PyVal.bool true) := by
    rw [hk]; simp [lookupPy]
  have hvis := annotVisD_hit [(f, PyVal.bool true)] b t (PyVal.bool true)
    hbw hbT hne hlook
  rw [hvis] at hab
  simp only [truthy, if_true, List.mem_singleton] at hab
  subst hab
  have hcT : c.T = some t := by rw [← lockAnnot_T none c, hbc, hbT]
  have hcw : c.subtype = "/Widget" := by rw [← lockAnnot_subtype none c, hbc, hbw]
  have hbdef : b = { c with Ff := some (c.Ff.getD 0 ||| 1) } := by
    rw [← hbc]
    exact lockAnnot_hit none c t hcw hcT hne rfl
  refine ⟨rfl, c.Ff.getD 0 ||| 1, ?_, testBit_lor_one_zero _⟩
  show b.Ff = some (c.Ff.getD 0 ||| 1)
  rw [hbdef]

/-- C1 amended witness: on c1Doc, locking all fields and then showing x
yields the widget c1OutAnnot, whose /F is 0 while /Ff has the read-only bit
set. -/
theorem C1_show_keeps_readonly_witness :
    c1OutAnnot.F = some 0
    ∧ ∃ n, c1OutAnnot.Ff = some n ∧ n.testBit 0 = true := by
  have h := C1_show_keeps_readonly c1Doc "x"
    { pages := [{ Annots := some [c1OutAnnot], rest := [] }],
      acroForm := some { needAppearances := true, rest := [] }, rest := [] }
    c1OutAnnot "(x)" rfl (by decide) rfl rfl (by decide) rfl
  exact h

/-- C4: on a dict visibility map the controller succeeds; pagewise, the
rebuilt annotation list is the flatMap of annotVisD over the old list; a
named Widget whose key maps to false is dropped, one whose key maps to true
is kept as the same annotation with /F set to 0 (all other attributes, Ff
included, unchanged); every other annotation is kept unchanged. -/
theorem C4_visibility_semantics (m : List (String × PyVal)) (d : Document) :
    set_button_visibility (some (PyVal.dict m)) d
      = Except.ok (setButtonVisibilityD m d)
    ∧ allAnnots (setButtonVisibilityD m d) = (allAnnots d).flatMap (annotVisD m)
    ∧ (∀ p, ((pageVisD m p).Annots).getD []
          = (p.Annots.getD []).flatMap (annotVisD m))
    ∧ (∀ a t v, a.subtype = "/Widget" → a.T = some t → t ≠ ""
        → lookupPy m (stripKey t) = some v
        → annotVisD m a = if truthy v then [{ a with F := some 0 }] else [])
    ∧ (∀ a, (∀ t, a.T = some t → a.subtype = "/Widget" → t ≠ ""
          → lookupPy m (stripKey t) = none) → annotVisD m a = [a]) :=
  ⟨vis_dict_ok m d, allAnnots_visD m d, pageVisD_getD m,
   fun a t v hw ht hne hv => annotVisD_hit m a t v hw ht hne hv,
   fun a ha => annotVisD_miss m a ha⟩

/-- C4 witness: with c4Map, the hide widget is dropped, the show widget is
kept with F = 0 and its Ff intact, and the link annotation is untouched. -/
theorem C4_visibility_semantics_witness :
    set_button_visibility (some (PyVal.dict c4Map)) c4Doc
      = Except.ok (setButtonVisibilityD c4Map c4Doc)
    ∧ annotVisD c4Map c4Hidden = []
    ∧ annotVisD c4Map c4Shown = [{ c4Shown with F := some 0 }]
    ∧ annotVisD c4Map c4Link = [c4Link] := by
  have h := C4_visibility_semantics c4Map c4Doc
  refine ⟨h.1, ?_, ?_, ?_⟩
  · have hh := h.2.2.2.1 c4Hidden "(hide)" (PyVal.bool false)
      rfl rfl (by decide) rfl
    simpa [truthy] using hh
  · have hh := h.2.2.2.1 c4Shown "(show)" (PyVal.bool true)
      rfl rfl (by decide) rfl
    simpa [truthy] using hh
  · exact h.2.2.2.2 c4Link (fun t ht hw hne => by simp [c4Link] at ht)

/-- C10: the handler passes the whole parsed body as the fill data, so a
widget named template_path or visibility_map is filled with the string form
of that request key (when the widget survives the visibility stage, i.e. its
name is not a key of the visibility dict). -/
theorem C10_reserved_keys_filled (template : Document)
    (body m : List (String × PyVal)) (k : String) (v : PyVal)
    (a : Annot) (t : String)
    (_hres : k = "template_path" ∨ k = "visibility_map")
    (hvm : lookupPy body "visibility_map" = some (PyVal.dict m))
    (hk : lookupPy body k = some v)
    (ha : a ∈ allAnnots template) (hw : a.subtype = "/Widget")
    (ht : a.T = some t) (hne : t ≠ "") (hkey : stripKey t = k)
    (hnm : lookupPy m k = none) :
    ∃ d', lambda_handler template body = Except.ok d'
      ∧ lockAnnot none { a with V := some (pyStr v), AS := some (pyStr v) }
          ∈ allAnnots d'
      ∧ (lockAnnot none { a with V := some (pyStr v), AS := some (pyStr v) }).V
          = some (pyStr v) := by
  have hred : lambda_handler template body
      = set_button_visibility (lookupPy body "visibility_map")
          (set_fields_readonly none (fill_pdf body template)) := rfl
  refine ⟨setButtonVisibilityD m (set_fields_readonly none (fill_pdf body template)),
    ?_, ?_, ?_⟩
  · rw [hred, hvm]
    exact vis_dict_ok m _
  · rw [allAnnots_visD, allAnnots_lock, allAnnots_fill]
    rw [List.mem_flatMap]
    have hfill : fillAnnot body a
        = { a with V := some (pyStr v), AS := some (pyStr v) } :=
      fillAnnot_hit body a t v hw ht hne (by rw [hkey]; exact hk)
    refine ⟨lockAnnot none (fillAnnot body a),
      List.mem_map_of_mem _ (List.mem_map_of_mem _ ha), ?_⟩
    rw [hfill]
    have hbT : (lockAnnot none
        { a with V := some (pyStr v), AS := some (pyStr v) }).T = some t := by
      rw [lockAnnot_T]
      exact ht
    rw [annotVisD_miss m _ (fun u hu hwu hneu => by
      rw [hbT] at hu
      injection hu with he
      subst he
      rw [hkey]
      exact hnm)]
    simp
  · rcases lockAnnot_eq_or none
      { a with V := some (pyStr v), AS := some (pyStr v) } with h | h <;> rw [h]

/-- C10 witness: a template with a widget named template_path, and a request
supplying template_path and a visibility_map dict, ends with that widget
holding the template path string. -/
theorem C10_reserved_keys_filled_witness :
    ∃ d', lambda_handler c10Doc c10Body = Except.ok d'
      ∧ lockAnnot none { mkWidget "(template_path)" (some 0) with
            V := some (pyStr (PyVal.str "input/other.pdf")),
            AS := some (pyStr (PyVal.str "input/other.pdf")) } ∈ allAnnots d'
      ∧ (lockAnnot none { mkWidget "(template_path)" (some 0) with
            V := some (pyStr (PyVal.str "input/other.pdf")),
            AS := some (pyStr (PyVal.str "input/other.pdf")) }).V
          = some (pyStr (PyVal.str "input/other.pdf")) :=
  C10_reserved_keys_filled c10Doc c10Body [("signature", PyVal.bool false)]
    "template_path" (PyVal.str "input/other.pdf")
    (mkWidget "(template_path)" (some 0)) "(template_path)"
    (Or.inl rfl) rfl rfl (by decide) rfl rfl (by decide) rfl rfl
